import Mathlib

/-!
Verification of the buildkite-demo-agent OSV vulnerability scanner.

The Python sources (`buildkite_demo_agent/__init__.py` and
`buildkite_demo_agent/osv_agent.py`) are shallowly embedded below:

* Python dict values that flow through the output-formatting layer are
  modelled by the inductive `Value` (string, int, or list-of-string fields of
  the pydantic `VulnerabilityInfo` model), and a result dict by an
  association list `ResultDict`.
* The LLM agent run (`self.agent.run(query)` inside
  `run_mcp_servers`) is an external effect; it is modelled as an oracle
  `runAgent : String → Except String VulnerabilityInfo` mapping the query
  string either to a structured result or to the message of a raised
  exception.
* `sys.exit(1)` after printing to stderr is modelled by returning an
  explicit exit outcome instead of a value.
-/

/-- Value of a field in a rendered result dict (`model_dump` output):
the `VulnerabilityInfo` fields are strings, one int counter, and
lists of strings. -/
inductive Value
  | str (s : String)
  | int (n : Int)
  | list (l : List String)
deriving DecidableEq, Repr

/-- Python truthiness for the `Value` types above: empty string, zero and
empty list are falsy. -/
def Value.truthy : Value → Bool
  | .str s => !s.isEmpty
  | .int n => n != 0
  | .list l => !l.isEmpty

/-- A Python dict as it is consumed by the threshold check: an association
list from string keys to values. -/
abbrev ResultDict := List (String × Value)

/-- The ordered severity list `["low", "medium", "high", "critical"]` from
`has_vulnerabilities_above_threshold`. -/
def severity_levels : List String := ["low", "medium", "high", "critical"]

/-- Embeds `check_single_result_threshold(result, threshold_index,
severity_levels)`: iterate `i` over `range(threshold_index,
len(severity_levels))` and report whether some key
`f"{severity_levels[i]}_vulnerabilities"` is present with a truthy value. -/
def check_single_result_threshold (result : ResultDict) (threshold_index : Nat)
    (levels : List String) : Bool :=
  (List.range' threshold_index (levels.length - threshold_index)).any fun i =>
    let severity := levels.getD i ""
    let key := severity ++ "_vulnerabilities"
    match result.lookup key with
    | some v => v.truthy
    | none => false

/-- The `output` value of `main` at the point of the exit-code check:
either a single result dict or a list of result dicts. -/
inductive PyOutput
  | dict (r : ResultDict)
  | list (rs : List ResultDict)

/-- Embeds `has_vulnerabilities_above_threshold(output, threshold)`. -/
def has_vulnerabilities_above_threshold (output : PyOutput) (threshold : String) : Bool :=
  let threshold_index := severity_levels.indexOf threshold
  match output with
  | .list results => results.any fun r =>
      check_single_result_threshold r threshold_index severity_levels
  | .dict result => check_single_result_threshold result threshold_index severity_levels

/-- Embeds the tail of `main`: `if args.fail_on_vulnerabilities and
has_vulnerabilities_above_threshold(output, args.severity_threshold):
sys.exit(1)`; falling off the end of `main` exits with code 0. -/
def fail_check_exit_code (fail_on_vulns : Bool) (output : PyOutput) (threshold : String) : Nat :=
  if fail_on_vulns && has_vulnerabilities_above_threshold output threshold then 1 else 0

/-- The pydantic `VulnerabilityInfo` structured output model. -/
structure VulnerabilityInfo where
  package_name : String
  ecosystem : String
  version : String
  vulnerabilities_found : Int
  critical_vulnerabilities : List String
  high_vulnerabilities : List String
  medium_vulnerabilities : List String
  recommendations : List String
  summary : String
deriving DecidableEq, Repr

/-- Embeds pydantic `model_dump()`: the dict with one entry per declared
field, in declaration order. -/
def VulnerabilityInfo.model_dump (info : VulnerabilityInfo) : ResultDict :=
  [("package_name", .str info.package_name),
   ("ecosystem", .str info.ecosystem),
   ("version", .str info.version),
   ("vulnerabilities_found", .int info.vulnerabilities_found),
   ("critical_vulnerabilities", .list info.critical_vulnerabilities),
   ("high_vulnerabilities", .list info.high_vulnerabilities),
   ("medium_vulnerabilities", .list info.medium_vulnerabilities),
   ("recommendations", .list info.recommendations),
   ("summary", .str info.summary)]

/-- The outputs `main` can feed to the exit-code check: the `model_dump` of a
single scan, the vulnerability-details dict
`{"vulnerability_id": ..., "details": ...}`, or a batch list of dumps. -/
inductive ScanOutput
  | single (info : VulnerabilityInfo)
  | vulnDetails (vulnerability_id details : String)
  | batch (infos : List VulnerabilityInfo)

/-- The Python `output` value each `ScanOutput` case produces in `main`. -/
def ScanOutput.outputDict : ScanOutput → PyOutput
  | .single info => .dict info.model_dump
  | .vulnDetails vid details =>
      .dict [("vulnerability_id", .str vid), ("details", .str details)]
  | .batch infos => .list (infos.map VulnerabilityInfo.model_dump)

/-- The list of result dicts an output holds (one for a single dict). -/
def PyOutput.records : PyOutput → List ResultDict
  | .dict r => [r]
  | .list rs => rs

/-- Specification-side predicate: the result has, for some severity `s` of
index at least the index of the threshold in `severity_levels`, a non-empty list
under the key `s ++ "_vulnerabilities"`. -/
def result_above_threshold_spec (r : ResultDict) (t : String) : Prop :=
  ∃ s ∈ severity_levels,
    severity_levels.indexOf t ≤ severity_levels.indexOf s ∧
    ∃ l, r.lookup (s ++ "_vulnerabilities") = some (.list l) ∧ l ≠ []

/-- Specification-side predicate over a whole output: some record in it is
above the threshold. -/
def output_above_threshold_spec (output : PyOutput) (t : String) : Prop :=
  ∃ r ∈ output.records, result_above_threshold_spec r t

/-- The query string built by `OSVAgent.scan_package`. -/
def scan_query (package_name ecosystem version : String) : String :=
  "Scan " ++ package_name ++ " version " ++ version ++ " from " ++ ecosystem ++
    " ecosystem for vulnerabilities"

/-- Embeds `OSVAgent.scan_package`: run the agent on the query; on success
return its structured output, on an exception return the default error
record. `runAgent` is the external agent run, producing either a structured
result or the message of a raised exception. -/
def scan_package (runAgent : String → Except String VulnerabilityInfo)
    (package_name ecosystem version : String) : VulnerabilityInfo :=
  let query := scan_query package_name ecosystem version
  match runAgent query with
  | .ok result => result
  | .error e =>
      { package_name := package_name
        ecosystem := ecosystem
        version := version
        vulnerabilities_found := 0
        critical_vulnerabilities := []
        high_vulnerabilities := []
        medium_vulnerabilities := []
        recommendations := ["Error scanning package: " ++ e]
        summary := "Failed to scan " ++ package_name ++ "@" ++ version ++ ": " ++ e }

/-- A package dict with the keys `package_name`, `ecosystem`, `version`, as
produced by `parse_packages_from_args`. -/
structure PackageDict where
  package_name : String
  ecosystem : String
  version : String
deriving DecidableEq, Repr

/-- Embeds `OSVAgent.scan_packages_batch`: start from an empty `results`
list and append `scan_package` on the package_name, ecosystem and version entries for each package in order. -/
def scan_packages_batch (runAgent : String → Except String VulnerabilityInfo)
    (packages : List PackageDict) : List VulnerabilityInfo :=
  packages.foldl
    (fun results pkg =>
      results ++ [scan_package runAgent pkg.package_name pkg.ecosystem pkg.version])
    []

/-- The query string built by `OSVAgent.get_vulnerability_details`. -/
def details_query (vulnerability_id : String) : String :=
  "Get detailed information about vulnerability " ++ vulnerability_id

/-- Embeds `OSVAgent.get_vulnerability_details`: run the agent on the query;
on success return the summary field of the structured output, on an
exception return an error string carrying the message. -/
def get_vulnerability_details (runAgent : String → Except String VulnerabilityInfo)
    (vulnerability_id : String) : String :=
  let query := details_query vulnerability_id
  match runAgent query with
  | .ok result => result.summary
  | .error e => "Error retrieving vulnerability details: " ++ e

/-- Python truthiness of an `Optional[str]`: `None` and the empty string are
falsy. -/
def optTruthy : Option String → Bool
  | none => false
  | some s => !s.isEmpty

/-- Embeds the API-key resolution in `OSVAgent.__init__`:
`config.anthropic_api_key or os.getenv("ANTHROPIC_API_KEY")`, then raise
`ValueError` when the result is falsy. The environment lookup is the
`env_key` argument (`none` when the variable is unset). -/
def osvagent_init_key_check (config_key env_key : Option String) : Except String Unit :=
  let api_key := if optTruthy config_key then config_key else env_key
  if !optTruthy api_key then
    .error "ANTHROPIC_API_KEY must be provided via config or environment variable"
  else
    .ok ()

/-- Reports whether `osvagent_init_key_check` raises. -/
def osvagent_init_raises (config_key env_key : Option String) : Bool :=
  match osvagent_init_key_check config_key env_key with
  | .error _ => true
  | .ok _ => false

/-- Python `s.endswith(suffix)` modelled on the character lists. -/
def strEndsWith (s suffix : String) : Bool :=
  suffix.data.isSuffixOf s.data

/-- Python `s.rstrip('/')` modelled on the character lists: drop every
trailing slash. -/
def rstripSlash (s : String) : String :=
  String.mk (s.data.reverse.dropWhile (fun c => c = '/')).reverse

/-- The MCP transport chosen by `OSVAgent.__init__`, with the URL it is
given. -/
inductive Transport
  | sse (url : String)
  | streamableHTTP (url : String)
deriving DecidableEq, Repr

/-- Embeds the transport auto-detection in `OSVAgent.__init__`: URLs ending
in `/sse` keep SSE unchanged; URLs ending in `/mcp` or `/mcp/` use
streamable HTTP on the URL with trailing slashes stripped and a single `/`
appended; anything else uses SSE with `/sse` appended. -/
def select_transport (osv_server_url : String) : Transport :=
  if strEndsWith osv_server_url "/sse" then
    .sse osv_server_url
  else if strEndsWith osv_server_url "/mcp" || strEndsWith osv_server_url "/mcp/" then
    .streamableHTTP (rstripSlash osv_server_url ++ "/")
  else
    .sse (osv_server_url ++ "/sse")

example : check_single_result_threshold [("high_vulnerabilities", .list ["CVE-1"])] 1
    severity_levels = true := by decide

example : check_single_result_threshold [("medium_vulnerabilities", .list ["CVE-1"])] 2
    severity_levels = false := by decide

example : check_single_result_threshold [("low_vulnerabilities", .list ["CVE-1"])] 0
    severity_levels = true := by decide

example : select_transport "http://localhost:8080" = .sse "http://localhost:8080/sse" := by decide

example : select_transport "http://h/mcp/" = .streamableHTTP "http://h/mcp/" := by decide

example : select_transport "http://h/mcp" = .streamableHTTP "http://h/mcp/" := by decide

example : select_transport "http://h/sse" = .sse "http://h/sse" := by decide

/-- Outcome of one of the package-list loaders: either the parsed list is
returned, or the process prints a message to stderr and exits with a code. -/
inductive ParseOutcome (α : Type)
  | returned (packages : α)
  | exited (code : Nat) (message : String)
deriving DecidableEq, Repr

/-- Python `str.split(sep)` for a one-character separator, on character
lists: no collapsing of adjacent separators, and the empty string splits to
one empty piece. -/
def splitOnChar (sep : Char) : List Char → List (List Char)
  | [] => [[]]
  | c :: rest =>
    let r := splitOnChar sep rest
    if c = sep then [] :: r
    else
      match r with
      | [] => [[c]]
      | w :: ws => (c :: w) :: ws

/-- Python `str.split(sep)` on strings. -/
def pySplit (s : String) (sep : Char) : List String :=
  (splitOnChar sep s.data).map String.mk

/-- Python `str.strip()`: drop leading and trailing whitespace. -/
def pyStrip (s : String) : String :=
  String.mk ((s.data.dropWhile Char.isWhitespace).reverse.dropWhile Char.isWhitespace).reverse

/-- The loop body of `parse_packages_from_args`: each comma-separated entry
is stripped and split on a colon; a split of length other than three raises
`ValueError`, otherwise the three parts become the dict fields in order. -/
def parse_args_loop : List String → Except String (List PackageDict)
  | [] => .ok []
  | pkg_str :: rest =>
    let parts := pySplit (pyStrip pkg_str) ':'
    if parts.length = 3 then
      match parse_args_loop rest with
      | .ok pkgs =>
          .ok ({ package_name := parts.getD 0 ""
                 ecosystem := parts.getD 1 ""
                 version := parts.getD 2 "" } :: pkgs)
      | .error e => .error e
    else
      .error ("Invalid package format: " ++ pkg_str ++
        ". Expected format: package:ecosystem:version")

/-- Embeds `parse_packages_from_args(packages_str)`: split the string on
commas and run the loop; an exception prints to stderr and exits with
code 1. -/
def parse_packages_from_args (packages_str : String) : ParseOutcome (List PackageDict) :=
  match parse_args_loop (pySplit packages_str ',') with
  | .ok packages => .returned packages
  | .error e => .exited 1 ("Error parsing packages: " ++ e)

/-- A package element of the JSON file, as a dict from keys to string
values. -/
abbrev FilePkg := List (String × String)

/-- Python `key in pkg` for a `FilePkg`. -/
def containsKey (pkg : FilePkg) (key : String) : Bool :=
  (pkg.lookup key).isSome

/-- The required keys checked by `parse_packages_from_file`. -/
def required_keys : List String := ["package_name", "ecosystem", "version"]

/-- The validation loop of `parse_packages_from_file`: raise `ValueError`
at the first package that does not contain all required keys. -/
def validate_file_packages : List FilePkg → Except String Unit
  | [] => .ok ()
  | pkg :: rest =>
    if required_keys.all (fun key => containsKey pkg key) then
      validate_file_packages rest
    else
      .error "Package missing required keys"

/-- Embeds `parse_packages_from_file` after the JSON has been decoded to a
list of dicts: validate every element and return the list unchanged; an
exception prints to stderr and exits with code 1. -/
def parse_packages_from_file (packages : List FilePkg) : ParseOutcome (List FilePkg) :=
  match validate_file_packages packages with
  | .ok _ => .returned packages
  | .error e => .exited 1 ("Error parsing packages file: " ++ e)

/-- The parsed command-line arguments of `main` that feed the scan-mode
validation (argparse stores `None` for an absent string option). -/
structure Args where
  package : Option String
  ecosystem : Option String
  version : Option String
  packages : Option String
  packages_file : Option String
  vulnerability_id : Option String
deriving DecidableEq, Repr

/-- Embeds the `scan_modes` list of `main`: the four mode flags, where the
single-package mode needs `package`, `ecosystem` and `version` all truthy. -/
def scan_modes (a : Args) : List Bool :=
  [optTruthy a.package && optTruthy a.ecosystem && optTruthy a.version,
   optTruthy a.packages,
   optTruthy a.packages_file,
   optTruthy a.vulnerability_id]

/-- Result of the argument-validation step at the top of `main`: exit before
any agent is constructed, or proceed with the arguments. -/
inductive MainStep
  | exitEarly (code : Nat)
  | proceed (a : Args)
deriving DecidableEq, Repr

/-- Embeds `if sum(scan_modes) != 1: print(...); sys.exit(1)` in `main`.
This step runs before `OSVConfig`/`OSVAgent` are constructed and before any
scan is performed. -/
def main_validate (a : Args) : MainStep :=
  if (scan_modes a).foldl (fun n b => n + b.toNat) 0 ≠ 1 then .exitEarly 1
  else .proceed a

/-- Specification-side reading of an option being provided and non-empty. -/
def providedNonEmpty (o : Option String) : Prop :=
  o.getD "" ≠ ""

instance (o : Option String) : Decidable (providedNonEmpty o) := by
  unfold providedNonEmpty; infer_instance

/-- Specification-side count of enabled scan modes: single package (all
three of package, ecosystem, version non-empty), packages, packages file,
vulnerability id. -/
def spec_enabled_modes (a : Args) : Nat :=
  (if providedNonEmpty a.package ∧ providedNonEmpty a.ecosystem ∧ providedNonEmpty a.version
    then 1 else 0)
  + (if providedNonEmpty a.packages then 1 else 0)
  + (if providedNonEmpty a.packages_file then 1 else 0)
  + (if providedNonEmpty a.vulnerability_id then 1 else 0)

example : parse_packages_from_args "requests:PyPI:2.25.0,lodash:npm:4.17.20" =
    .returned [{ package_name := "requests", ecosystem := "PyPI", version := "2.25.0" },
               { package_name := "lodash", ecosystem := "npm", version := "4.17.20" }] := by
  decide

example : parse_packages_from_args "requests:PyPI" =
    .exited 1 ("Error parsing packages: Invalid package format: requests:PyPI" ++
      ". Expected format: package:ecosystem:version") := by decide

example : parse_packages_from_file [[("package_name", "a"), ("ecosystem", "b"), ("version", "c")]] =
    .returned [[("package_name", "a"), ("ecosystem", "b"), ("version", "c")]] := by decide

example : parse_packages_from_file [[("package_name", "a")]] =
    .exited 1 "Error parsing packages file: Package missing required keys" := by decide

example : main_validate { package := some "a", ecosystem := some "b", version := some "c", packages := none, packages_file := none, vulnerability_id := none } =
    .proceed { package := some "a", ecosystem := some "b", version := some "c", packages := none, packages_file := none, vulnerability_id := none } := by decide

example : main_validate { package := some "a", ecosystem := none, version := some "c", packages := none, packages_file := none, vulnerability_id := none } = .exitEarly 1 := by decide

/-- The default error record returned by a failing `scan_package`. -/
def error_record (package_name ecosystem version e : String) : VulnerabilityInfo :=
  { package_name := package_name
    ecosystem := ecosystem
    version := version
    vulnerabilities_found := 0
    critical_vulnerabilities := []
    high_vulnerabilities := []
    medium_vulnerabilities := []
    recommendations := ["Error scanning package: " ++ e]
    summary := "Failed to scan " ++ package_name ++ "@" ++ version ++ ": " ++ e }

/-- The package dict a well-formed inline entry parses to: the three
colon-separated parts of the stripped entry, in order. -/
def entryToPkg (entry : String) : PackageDict :=
  let parts := pySplit (pyStrip entry) ':'
  { package_name := parts.getD 0 ""
    ecosystem := parts.getD 1 ""
    version := parts.getD 2 "" }

/-- Truthiness of the value a result dict holds at a key, `false` when the
key is absent: the probe `check_single_result_threshold` applies per key. -/
def truthyAt (r : ResultDict) (key : String) : Bool :=
  match r.lookup key with
  | some v => v.truthy
  | none => false

/-- A concrete scan result used to instantiate theorems. -/
def sample_info : VulnerabilityInfo :=
  { package_name := "requests"
    ecosystem := "PyPI"
    version := "2.25.0"
    vulnerabilities_found := 1
    critical_vulnerabilities := []
    high_vulnerabilities := ["CVE-2023-32681"]
    medium_vulnerabilities := []
    recommendations := ["upgrade to 2.31.0"]
    summary := "one high severity vulnerability" }

/-- A concrete package dict used to instantiate theorems. -/
def sample_pkg : PackageDict :=
  { package_name := "requests"
    ecosystem := "PyPI"
    version := "2.25.0" }

/-! Helper lemmas shared by several claim proofs. -/

/-- Folding append-of-singleton over a list from any accumulator is the
accumulator followed by the map. -/
theorem foldl_append_singleton_eq_map {α β : Type} (f : α → β) :
    ∀ (l : List α) (acc : List β),
      l.foldl (fun results x => results ++ [f x]) acc = acc ++ l.map f := by
  intro l
  induction l with
  | nil => intro acc; simp
  | cons x xs ih =>
      intro acc
      simp [List.foldl, ih (acc ++ [f x])]

/-- The batch scan is the map of the single-package scan over the list. -/
theorem scan_packages_batch_eq_map (runAgent : String → Except String VulnerabilityInfo)
    (packages : List PackageDict) :
    scan_packages_batch runAgent packages =
      packages.map
        (fun pkg => scan_package runAgent pkg.package_name pkg.ecosystem pkg.version) := by
  unfold scan_packages_batch
  simpa using foldl_append_singleton_eq_map
    (fun pkg : PackageDict => scan_package runAgent pkg.package_name pkg.ecosystem pkg.version)
    packages []

/-- A failing agent run makes `scan_package` return the error record. -/
theorem scan_package_error (runAgent : String → Except String VulnerabilityInfo)
    (package_name ecosystem version e : String)
    (h : runAgent (scan_query package_name ecosystem version) = .error e) :
    scan_package runAgent package_name ecosystem version =
      error_record package_name ecosystem version e := by
  simp only [scan_package, error_record]
  rw [h]

/-- C10: `OSVAgent.__init__` raises `ValueError` exactly when both the
config key and the `ANTHROPIC_API_KEY` environment variable are falsy
(unset or empty); a truthy key from either source avoids the error. -/
theorem C10_init_api_key_check (config_key env_key : Option String) :
    osvagent_init_raises config_key env_key =
      (!optTruthy config_key && !optTruthy env_key) := by
  unfold osvagent_init_raises osvagent_init_key_check
  cases hc : optTruthy config_key <;> cases he : optTruthy env_key <;> simp [hc, he]

/-- C2: whenever the agent run raises, `scan_package` returns the default
error record echoing the inputs, with zero vulnerabilities found, all three
severity lists empty, a single recommendation carrying the error message,
and the summary `Failed to scan <name>@<version>: <error>`; the exception
is never propagated. -/
theorem C2_scan_package_error_record
    (runAgent : String → Except String VulnerabilityInfo)
    (package_name ecosystem version e : String)
    (h : runAgent (scan_query package_name ecosystem version) = .error e) :
    scan_package runAgent package_name ecosystem version =
      { package_name := package_name
        ecosystem := ecosystem
        version := version
        vulnerabilities_found := 0
        critical_vulnerabilities := []
        high_vulnerabilities := []
        medium_vulnerabilities := []
        recommendations := ["Error scanning package: " ++ e]
        summary := "Failed to scan " ++ package_name ++ "@" ++ version ++ ": " ++ e } :=
  scan_package_error runAgent package_name ecosystem version e h

/-- Witness for C2 at a concrete failing run. -/
theorem C2_scan_package_error_record_witness :
    scan_package (fun _ => .error "boom") "requests" "PyPI" "2.25.0" =
      { package_name := "requests"
        ecosystem := "PyPI"
        version := "2.25.0"
        vulnerabilities_found := 0
        critical_vulnerabilities := []
        high_vulnerabilities := []
        medium_vulnerabilities := []
        recommendations := ["Error scanning package: " ++ "boom"]
        summary := "Failed to scan " ++ "requests" ++ "@" ++ "2.25.0" ++ ": " ++ "boom" } :=
  C2_scan_package_error_record (fun _ => .error "boom") "requests" "PyPI" "2.25.0" "boom" rfl

/-- C5: the batch scan is a sequential loop over the single-package scan:
its result is exactly the list of `scan_package` results for each package
in input order, it preserves the length, and the empty input yields the
empty list. -/
theorem C5_scan_packages_batch_refines_map
    (runAgent : String → Except String VulnerabilityInfo)
    (packages : List PackageDict) :
    scan_packages_batch runAgent packages =
      packages.map
        (fun pkg => scan_package runAgent pkg.package_name pkg.ecosystem pkg.version)
    ∧ (scan_packages_batch runAgent packages).length = packages.length
    ∧ scan_packages_batch runAgent ([] : List PackageDict) = [] := by
  refine ⟨scan_packages_batch_eq_map runAgent packages, ?_, rfl⟩
  rw [scan_packages_batch_eq_map runAgent packages, List.length_map]

/-- C7: `get_vulnerability_details` returns the summary field of the
structured result on success, and on an exception returns the string
`Error retrieving vulnerability details: ` followed by the error message,
never propagating the exception. -/
theorem C7_get_vulnerability_details
    (runAgent : String → Except String VulnerabilityInfo) (vulnerability_id : String) :
    (∀ info, runAgent (details_query vulnerability_id) = .ok info →
      get_vulnerability_details runAgent vulnerability_id = info.summary)
    ∧ (∀ e, runAgent (details_query vulnerability_id) = .error e →
      get_vulnerability_details runAgent vulnerability_id =
        "Error retrieving vulnerability details: " ++ e) := by
  constructor <;> intro x h <;> simp only [get_vulnerability_details] <;> rw [h]

/-- Witness for C7 at a concrete succeeding run and a concrete failing
run. -/
theorem C7_get_vulnerability_details_witness :
    get_vulnerability_details (fun _ => .error "down") "GHSA-9hjg-9r4m-mvj7" =
      "Error retrieving vulnerability details: " ++ "down" :=
  (C7_get_vulnerability_details (fun _ => .error "down") "GHSA-9hjg-9r4m-mvj7").2 "down" rfl

/-- Python truthiness of an option agrees with the specification-side
`providedNonEmpty`. -/
theorem optTruthy_iff (o : Option String) : optTruthy o = true ↔ providedNonEmpty o := by
  cases o with
  | none => simp [optTruthy, providedNonEmpty]
  | some s =>
      simp only [optTruthy, providedNonEmpty, Option.getD_some, Bool.not_eq_true', ne_eq]
      rw [← String.isEmpty_iff s]
      cases s.isEmpty <;> simp

/-- The Python sum over the `scan_modes` booleans equals the
specification-side count of enabled modes. -/
theorem scan_modes_sum_eq_spec (a : Args) :
    (scan_modes a).foldl (fun n b => n + b.toNat) 0 = spec_enabled_modes a := by
  simp only [scan_modes, spec_enabled_modes, List.foldl, ← optTruthy_iff]
  cases optTruthy a.package <;> cases optTruthy a.ecosystem <;> cases optTruthy a.version <;>
    cases optTruthy a.packages <;> cases optTruthy a.packages_file <;>
    cases optTruthy a.vulnerability_id <;> simp

/-- C3: `main` counts the four scan modes (single package needs all of
package, ecosystem and version non-empty) and exits with code 1, before the
agent is constructed or any scan is attempted, exactly when the number of
enabled modes differs from one; with exactly one mode it proceeds. -/
theorem C3_main_validate_scan_modes (a : Args) :
    (main_validate a = .exitEarly 1 ↔ spec_enabled_modes a ≠ 1)
    ∧ (spec_enabled_modes a = 1 → main_validate a = .proceed a) := by
  unfold main_validate
  rw [scan_modes_sum_eq_spec]
  constructor
  · constructor
    · intro h hn
      rw [if_neg (by simpa using hn)] at h
      exact absurd h (by simp)
    · intro hn
      rw [if_pos hn]
  · intro hn
    rw [if_neg (by simpa using hn)]

/-- Witness for C3: one enabled mode proceeds. -/
theorem C3_main_validate_scan_modes_witness :
    spec_enabled_modes { package := none
                         ecosystem := none
                         version := none
                         packages := some "requests:PyPI:2.25.0"
                         packages_file := none
                         vulnerability_id := none } = 1
    ∧ main_validate { package := none
                      ecosystem := none
                      version := none
                      packages := some "requests:PyPI:2.25.0"
                      packages_file := none
                      vulnerability_id := none } =
        .proceed { package := none
                   ecosystem := none
                   version := none
                   packages := some "requests:PyPI:2.25.0"
                   packages_file := none
                   vulnerability_id := none } :=
  ⟨by decide,
   (C3_main_validate_scan_modes { package := none
                                  ecosystem := none
                                  version := none
                                  packages := some "requests:PyPI:2.25.0"
                                  packages_file := none
                                  vulnerability_id := none }).2 (by decide)⟩

/-- A string with a single slash appended ends with a slash. -/
theorem strEndsWith_single_slash (s : String) : strEndsWith (s ++ "/") "/" = true := by
  unfold strEndsWith
  show List.isSuffixOf ['/'] (s.data ++ ['/']) = true
  unfold List.isSuffixOf
  simp [List.isPrefixOf]

/-- Stripping all trailing slashes and appending one slash never leaves two
trailing slashes. -/
theorem rstripSlash_no_double_slash (url : String) :
    strEndsWith (rstripSlash url ++ "/") "//" = false := by
  unfold strEndsWith rstripSlash
  show List.isSuffixOf ['/', '/']
      ((url.data.reverse.dropWhile (fun c => c = '/')).reverse ++ ['/']) = false
  unfold List.isSuffixOf
  rw [List.reverse_append, List.reverse_reverse]
  cases hw : url.data.reverse.dropWhile (fun c => c = '/') with
  | nil => simp [List.isPrefixOf]
  | cons c cs =>
      have hc : ¬ ((fun x => x = '/') c : Bool) := by
        have h0 : 0 < (url.data.reverse.dropWhile (fun c => c = '/')).length := by
          rw [hw]; simp
        have := @List.dropWhile_get_zero_not Char (fun x => decide (x = '/'))
          url.data.reverse h0
        simpa [hw] using this
      simp only [decide_eq_true_eq] at hc
      simp [List.isPrefixOf, hc, Ne.symm hc]

/-- C4: transport auto-detection in `OSVAgent.__init__`: a URL ending in
`/sse` yields an SSE transport with the URL unchanged; a URL ending in
`/mcp` or `/mcp/` yields a streamable-HTTP transport whose URL is the
input with trailing slashes stripped and one `/` appended, hence ending in
exactly one trailing slash; any other URL yields an SSE transport with
`/sse` appended. -/
theorem C4_select_transport (url : String) :
    (strEndsWith url "/sse" = true → select_transport url = .sse url)
    ∧ (strEndsWith url "/sse" = false →
        (strEndsWith url "/mcp" = true ∨ strEndsWith url "/mcp/" = true) →
          select_transport url = .streamableHTTP (rstripSlash url ++ "/")
          ∧ strEndsWith (rstripSlash url ++ "/") "/" = true
          ∧ strEndsWith (rstripSlash url ++ "/") "//" = false)
    ∧ (strEndsWith url "/sse" = false → strEndsWith url "/mcp" = false →
        strEndsWith url "/mcp/" = false → select_transport url = .sse (url ++ "/sse")) := by
  refine ⟨?_, ?_, ?_⟩
  · intro h
    simp [select_transport, h]
  · intro h hm
    refine ⟨?_, strEndsWith_single_slash (rstripSlash url),
      rstripSlash_no_double_slash url⟩
    rcases hm with hm | hm <;> simp [select_transport, h, hm]
  · intro h hm hm2
    simp [select_transport, h, hm, hm2]

/-- Witness for C4 on the three concrete transport-selection cases. -/
theorem C4_select_transport_witness :
    select_transport "http://h/sse" = .sse "http://h/sse"
    ∧ select_transport "http://h/mcp" = .streamableHTTP (rstripSlash "http://h/mcp" ++ "/")
    ∧ select_transport "http://localhost:8080" = .sse ("http://localhost:8080" ++ "/sse") :=
  ⟨(C4_select_transport "http://h/sse").1 (by decide),
   ((C4_select_transport "http://h/mcp").2.1 (by decide) (Or.inl (by decide))).1,
   (C4_select_transport "http://localhost:8080").2.2 (by decide) (by decide) (by decide)⟩

/-- When every entry splits into exactly three parts, the parse loop
returns the mapped package dicts. -/
theorem parse_args_loop_ok (l : List String)
    (hall : ∀ entry ∈ l, (pySplit (pyStrip entry) ':').length = 3) :
    parse_args_loop l = .ok (l.map entryToPkg) := by
  induction l with
  | nil => rfl
  | cons a rest ih =>
      have ha := hall a (by simp)
      have hrest : ∀ entry ∈ rest, (pySplit (pyStrip entry) ':').length = 3 := by
        intro entry he
        exact hall entry (by simp [he])
      simp only [parse_args_loop, ha, if_pos, ih hrest, List.map_cons]
      rfl

/-- When some entry does not split into exactly three parts, the parse loop
raises. -/
theorem parse_args_loop_error (l : List String)
    (hex : ∃ entry ∈ l, (pySplit (pyStrip entry) ':').length ≠ 3) :
    ∃ msg, parse_args_loop l = .error msg := by
  induction l with
  | nil => simp at hex
  | cons a rest ih =>
      by_cases ha : (pySplit (pyStrip a) ':').length = 3
      · have hrest : ∃ entry ∈ rest, (pySplit (pyStrip entry) ':').length ≠ 3 := by
          rcases hex with ⟨entry, he, hne⟩
          rcases List.mem_cons.mp he with rfl | hmem
          · exact absurd ha hne
          · exact ⟨entry, hmem, hne⟩
        rcases ih hrest with ⟨msg, hmsg⟩
        refine ⟨msg, ?_⟩
        simp only [parse_args_loop, ha, if_pos, hmsg]
      · exact ⟨"Invalid package format: " ++ a ++
          ". Expected format: package:ecosystem:version", by simp [parse_args_loop, ha]⟩

/-- When every file package has the required keys, validation succeeds. -/
theorem validate_file_packages_ok (packages : List FilePkg)
    (hall : ∀ pkg ∈ packages, ∀ key ∈ required_keys, containsKey pkg key = true) :
    validate_file_packages packages = .ok () := by
  induction packages with
  | nil => rfl
  | cons pkg rest ih =>
      have hp : required_keys.all (fun key => containsKey pkg key) = true := by
        simp only [List.all_eq_true]
        intro key hk
        exact hall pkg (by simp) key hk
      have hrest : ∀ pkg ∈ rest, ∀ key ∈ required_keys, containsKey pkg key = true := by
        intro p hp2 key hk
        exact hall p (by simp [hp2]) key hk
      simp only [validate_file_packages, hp, if_pos, ih hrest]

/-- When some file package misses a required key, validation raises. -/
theorem validate_file_packages_error (packages : List FilePkg)
    (hex : ∃ pkg ∈ packages, ∃ key ∈ required_keys, containsKey pkg key = false) :
    ∃ msg, validate_file_packages packages = .error msg := by
  induction packages with
  | nil => simp at hex
  | cons pkg rest ih =>
      by_cases hp : required_keys.all (fun key => containsKey pkg key) = true
      · have hrest : ∃ p ∈ rest, ∃ key ∈ required_keys, containsKey p key = false := by
          rcases hex with ⟨p, hmem, key, hk, hck⟩
          rcases List.mem_cons.mp hmem with rfl | hmem2
          · have := List.all_eq_true.mp hp key hk
            rw [this] at hck
            exact absurd hck (by simp)
          · exact ⟨p, hmem2, key, hk, hck⟩
        rcases ih hrest with ⟨msg, hmsg⟩
        refine ⟨msg, ?_⟩
        simp only [validate_file_packages, hp, if_pos, hmsg]
      · exact ⟨"Package missing required keys", by simp [validate_file_packages, hp]⟩

/-- C6: loading a package list validates its shape: every comma-separated
inline entry must strip and split on `:` into exactly three parts, which
become `package_name`, `ecosystem` and `version` in order; every JSON-file
element must contain all three required keys; any violation exits the
process with code 1 instead of returning a list. -/
theorem C6_parse_packages_validation (packages_str : String) (filePkgs : List FilePkg) :
    ((∀ entry ∈ pySplit packages_str ',', (pySplit (pyStrip entry) ':').length = 3) →
      parse_packages_from_args packages_str =
        .returned ((pySplit packages_str ',').map entryToPkg))
    ∧ ((∃ entry ∈ pySplit packages_str ',', (pySplit (pyStrip entry) ':').length ≠ 3) →
      ∃ msg, parse_packages_from_args packages_str = .exited 1 msg)
    ∧ ((∀ pkg ∈ filePkgs, ∀ key ∈ required_keys, containsKey pkg key = true) →
      parse_packages_from_file filePkgs = .returned filePkgs)
    ∧ ((∃ pkg ∈ filePkgs, ∃ key ∈ required_keys, containsKey pkg key = false) →
      ∃ msg, parse_packages_from_file filePkgs = .exited 1 msg) := by
  refine ⟨?_, ?_, ?_, ?_⟩
  · intro hall
    unfold parse_packages_from_args
    rw [parse_args_loop_ok (pySplit packages_str ',') hall]
  · intro hex
    rcases parse_args_loop_error (pySplit packages_str ',') hex with ⟨msg, hmsg⟩
    refine ⟨"Error parsing packages: " ++ msg, ?_⟩
    unfold parse_packages_from_args
    rw [hmsg]
  · intro hall
    unfold parse_packages_from_file
    rw [validate_file_packages_ok filePkgs hall]
  · intro hex
    rcases validate_file_packages_error filePkgs hex with ⟨msg, hmsg⟩
    refine ⟨"Error parsing packages file: " ++ msg, ?_⟩
    unfold parse_packages_from_file
    rw [hmsg]

/-- Witness for C6: a well-formed inline string and a well-formed file
list are returned as parsed. -/
theorem C6_parse_packages_validation_witness :
    parse_packages_from_args "requests:PyPI:2.25.0" =
      .returned ((pySplit "requests:PyPI:2.25.0" ',').map entryToPkg)
    ∧ parse_packages_from_file [[("package_name", "lodash"), ("ecosystem", "npm"),
        ("version", "4.17.20")]] =
      .returned [[("package_name", "lodash"), ("ecosystem", "npm"), ("version", "4.17.20")]] :=
  ⟨(C6_parse_packages_validation "requests:PyPI:2.25.0" []).1 (by decide),
   (C6_parse_packages_validation "requests:PyPI:2.25.0"
      [[("package_name", "lodash"), ("ecosystem", "npm"), ("version", "4.17.20")]]).2.2.1
      (by decide)⟩

/-- A result dict whose probes at every severity key (and at the
out-of-range key `_vulnerabilities`) are falsy fails the threshold check at
every threshold index. -/
theorem check_false_of_probes (r : ResultDict) (k : Nat)
    (h0 : truthyAt r "low_vulnerabilities" = false)
    (h1 : truthyAt r "medium_vulnerabilities" = false)
    (h2 : truthyAt r "high_vulnerabilities" = false)
    (h3 : truthyAt r "critical_vulnerabilities" = false)
    (h4 : truthyAt r "_vulnerabilities" = false) :
    check_single_result_threshold r k severity_levels = false := by
  unfold check_single_result_threshold
  apply List.any_eq_false.mpr
  intro i _
  simp only [Bool.not_eq_true]
  match i with
  | 0 => exact h0
  | 1 => exact h1
  | 2 => exact h2
  | 3 => exact h3
  | n + 4 => exact h4

/-- On a `model_dump` record the threshold check agrees with the
specification-side predicate, for every valid threshold. -/
theorem check_dump_iff (info : VulnerabilityInfo) (t : String) (ht : t ∈ severity_levels) :
    check_single_result_threshold info.model_dump (severity_levels.indexOf t) severity_levels
      = true
    ↔ result_above_threshold_spec info.model_dump t := by
  have l0 : (VulnerabilityInfo.model_dump info).lookup ("low" ++ "_vulnerabilities")
      = none := rfl
  have l1 : (VulnerabilityInfo.model_dump info).lookup ("medium" ++ "_vulnerabilities")
      = some (.list info.medium_vulnerabilities) := rfl
  have l2 : (VulnerabilityInfo.model_dump info).lookup ("high" ++ "_vulnerabilities")
      = some (.list info.high_vulnerabilities) := rfl
  have l3 : (VulnerabilityInfo.model_dump info).lookup ("critical" ++ "_vulnerabilities")
      = some (.list info.critical_vulnerabilities) := rfl
  simp only [severity_levels, List.mem_cons, List.mem_singleton, List.not_mem_nil, or_false] at ht
  unfold result_above_threshold_spec
  rcases ht with rfl | rfl | rfl | rfl
  · rw [show check_single_result_threshold info.model_dump (severity_levels.indexOf "low")
        severity_levels =
        (!info.medium_vulnerabilities.isEmpty ||
          (!info.high_vulnerabilities.isEmpty ||
            (!info.critical_vulnerabilities.isEmpty || false))) from rfl]
    simp only [Bool.or_false, Bool.or_eq_true, Bool.not_eq_true', List.isEmpty_eq_false]
    constructor
    · rintro (hne | hne | hne)
      · exact ⟨"medium", by decide, by decide, info.medium_vulnerabilities, l1, hne⟩
      · exact ⟨"high", by decide, by decide, info.high_vulnerabilities, l2, hne⟩
      · exact ⟨"critical", by decide, by decide, info.critical_vulnerabilities, l3, hne⟩
    · rintro ⟨s, hs, hle, l, hl, hlne⟩
      simp only [severity_levels, List.mem_cons, List.mem_singleton, List.not_mem_nil,
        or_false] at hs
      rcases hs with rfl | rfl | rfl | rfl
      · rw [l0] at hl; cases hl
      · rw [l1] at hl
        simp only [Option.some.injEq, Value.list.injEq] at hl
        exact Or.inl (by rw [hl]; exact hlne)
      · rw [l2] at hl
        simp only [Option.some.injEq, Value.list.injEq] at hl
        exact Or.inr (Or.inl (by rw [hl]; exact hlne))
      · rw [l3] at hl
        simp only [Option.some.injEq, Value.list.injEq] at hl
        exact Or.inr (Or.inr (by rw [hl]; exact hlne))
  · rw [show check_single_result_threshold info.model_dump (severity_levels.indexOf "medium")
        severity_levels =
        (!info.medium_vulnerabilities.isEmpty ||
          (!info.high_vulnerabilities.isEmpty ||
            (!info.critical_vulnerabilities.isEmpty || false))) from rfl]
    simp only [Bool.or_false, Bool.or_eq_true, Bool.not_eq_true', List.isEmpty_eq_false]
    constructor
    · rintro (hne | hne | hne)
      · exact ⟨"medium", by decide, by decide, info.medium_vulnerabilities, l1, hne⟩
      · exact ⟨"high", by decide, by decide, info.high_vulnerabilities, l2, hne⟩
      · exact ⟨"critical", by decide, by decide, info.critical_vulnerabilities, l3, hne⟩
    · rintro ⟨s, hs, hle, l, hl, hlne⟩
      simp only [severity_levels, List.mem_cons, List.mem_singleton, List.not_mem_nil,
        or_false] at hs
      rcases hs with rfl | rfl | rfl | rfl
      · rw [l0] at hl; cases hl
      · rw [l1] at hl
        simp only [Option.some.injEq, Value.list.injEq] at hl
        exact Or.inl (by rw [hl]; exact hlne)
      · rw [l2] at hl
        simp only [Option.some.injEq, Value.list.injEq] at hl
        exact Or.inr (Or.inl (by rw [hl]; exact hlne))
      · rw [l3] at hl
        simp only [Option.some.injEq, Value.list.injEq] at hl
        exact Or.inr (Or.inr (by rw [hl]; exact hlne))
  · rw [show check_single_result_threshold info.model_dump (severity_levels.indexOf "high")
        severity_levels =
        (!info.high_vulnerabilities.isEmpty ||
          (!info.critical_vulnerabilities.isEmpty || false)) from rfl]
    simp only [Bool.or_false, Bool.or_eq_true, Bool.not_eq_true', List.isEmpty_eq_false]
    constructor
    · rintro (hne | hne)
      · exact ⟨"high", by decide, by decide, info.high_vulnerabilities, l2, hne⟩
      · exact ⟨"critical", by decide, by decide, info.critical_vulnerabilities, l3, hne⟩
    · rintro ⟨s, hs, hle, l, hl, hlne⟩
      simp only [severity_levels, List.mem_cons, List.mem_singleton, List.not_mem_nil,
        or_false] at hs
      rcases hs with rfl | rfl | rfl | rfl
      · rw [l0] at hl; cases hl
      · exact absurd hle (by decide)
      · rw [l2] at hl
        simp only [Option.some.injEq, Value.list.injEq] at hl
        exact Or.inl (by rw [hl]; exact hlne)
      · rw [l3] at hl
        simp only [Option.some.injEq, Value.list.injEq] at hl
        exact Or.inr (by rw [hl]; exact hlne)
  · rw [show check_single_result_threshold info.model_dump (severity_levels.indexOf "critical")
        severity_levels =
        (!info.critical_vulnerabilities.isEmpty || false) from rfl]
    simp only [Bool.or_false, Bool.or_eq_true, Bool.not_eq_true', List.isEmpty_eq_false]
    constructor
    · intro hne
      exact ⟨"critical", by decide, by decide, info.critical_vulnerabilities, l3, hne⟩
    · rintro ⟨s, hs, hle, l, hl, hlne⟩
      simp only [severity_levels, List.mem_cons, List.mem_singleton, List.not_mem_nil,
        or_false] at hs
      rcases hs with rfl | rfl | rfl | rfl
      · rw [l0] at hl; cases hl
      · exact absurd hle (by decide)
      · exact absurd hle (by decide)
      · rw [l3] at hl
        simp only [Option.some.injEq, Value.list.injEq] at hl
        rw [hl]; exact hlne

/-- The vulnerability-details dict holds no severity key, so it is never
above any threshold in the specification sense. -/
theorem vuln_details_record_not_spec (vid details t : String) :
    ¬ result_above_threshold_spec
        [("vulnerability_id", .str vid), ("details", .str details)] t := by
  rintro ⟨s, hs, hle, l, hl, hlne⟩
  simp only [severity_levels, List.mem_cons, List.mem_singleton, List.not_mem_nil,
    or_false] at hs
  rcases hs with rfl | rfl | rfl | rfl <;> cases hl

/-- On every output `main` can produce, the code-side threshold check
agrees with the specification-side predicate. -/
theorem has_iff_spec (o : ScanOutput) (t : String) (ht : t ∈ severity_levels) :
    has_vulnerabilities_above_threshold o.outputDict t = true
    ↔ output_above_threshold_spec o.outputDict t := by
  cases o with
  | single info =>
      show check_single_result_threshold info.model_dump (severity_levels.indexOf t)
        severity_levels = true ↔ _
      rw [check_dump_iff info t ht]
      unfold output_above_threshold_spec
      constructor
      · intro h
        exact ⟨info.model_dump, List.mem_singleton.mpr rfl, h⟩
      · rintro ⟨r, hr, hspec⟩
        rcases List.mem_singleton.mp hr with rfl
        exact hspec
  | vulnDetails vid details =>
      constructor
      · intro hb
        have hb2 : check_single_result_threshold
            [("vulnerability_id", .str vid), ("details", .str details)]
            (severity_levels.indexOf t) severity_levels = true := hb
        rw [check_false_of_probes
          [("vulnerability_id", .str vid), ("details", .str details)]
          (severity_levels.indexOf t) rfl rfl rfl rfl rfl] at hb2
        exact Bool.noConfusion hb2
      · rintro ⟨r, hr, hspec⟩
        rcases List.mem_singleton.mp hr with rfl
        exact absurd hspec (vuln_details_record_not_spec vid details t)
  | batch infos =>
      show (infos.map VulnerabilityInfo.model_dump).any
        (fun r => check_single_result_threshold r (severity_levels.indexOf t) severity_levels)
          = true ↔ _
      rw [List.any_eq_true]
      unfold output_above_threshold_spec
      constructor
      · rintro ⟨r, hr, hcheck⟩
        rcases List.mem_map.mp hr with ⟨info, hinfo, rfl⟩
        exact ⟨info.model_dump, List.mem_map_of_mem _ hinfo,
          (check_dump_iff info t ht).mp hcheck⟩
      · rintro ⟨r, hr, hspec⟩
        rcases List.mem_map.mp hr with ⟨info, hinfo, rfl⟩
        exact ⟨info.model_dump, List.mem_map_of_mem _ hinfo,
          (check_dump_iff info t ht).mpr hspec⟩

/-- C1: with `--fail-on-vulnerabilities` set, the program exits with code 1
exactly when some result holds a non-empty list under a key
`s ++ "_vulnerabilities"` for a severity `s` of index at least the
index of the threshold in the ordered severity list, and with code 0
otherwise. -/
theorem C1_fail_on_vulnerabilities_exit_code (o : ScanOutput) (t : String)
    (ht : t ∈ severity_levels) :
    (fail_check_exit_code true o.outputDict t = 1 ↔ output_above_threshold_spec o.outputDict t)
    ∧ (¬ output_above_threshold_spec o.outputDict t →
        fail_check_exit_code true o.outputDict t = 0) := by
  have hiff := has_iff_spec o t ht
  unfold fail_check_exit_code
  rw [Bool.true_and]
  cases hb : has_vulnerabilities_above_threshold o.outputDict t with
  | true =>
      rw [hb] at hiff
      refine ⟨iff_of_true (by simp) (hiff.mp rfl), fun hn => absurd (hiff.mp rfl) hn⟩
  | false =>
      rw [hb] at hiff
      have hns : ¬ output_above_threshold_spec o.outputDict t := fun hs => by
        simpa using hiff.mpr hs
      exact ⟨iff_of_false (by simp) hns, fun _ => by simp⟩

/-- Witness for C1: a scan output with one high-severity finding makes the
program exit with code 1 at the high threshold. -/
theorem C1_fail_on_vulnerabilities_exit_code_witness :
    ("high" ∈ severity_levels)
    ∧ fail_check_exit_code true (ScanOutput.single sample_info).outputDict "high" = 1 :=
  ⟨by decide,
   (C1_fail_on_vulnerabilities_exit_code (ScanOutput.single sample_info) "high"
      (by decide)).1.mpr
     ⟨sample_info.model_dump, by decide, "high", by decide, by decide,
      ["CVE-2023-32681"], rfl, by decide⟩⟩

/-- C8: a `VulnerabilityInfo` dump never carries a `low_vulnerabilities`
key, so the threshold check at `low` coincides with the check at `medium`,
for a single result and for batch results alike. -/
theorem C8_threshold_low_eq_medium (info : VulnerabilityInfo)
    (infos : List VulnerabilityInfo) :
    (VulnerabilityInfo.model_dump info).lookup "low_vulnerabilities" = none
    ∧ has_vulnerabilities_above_threshold (.dict info.model_dump) "low"
      = has_vulnerabilities_above_threshold (.dict info.model_dump) "medium"
    ∧ has_vulnerabilities_above_threshold (.list (infos.map VulnerabilityInfo.model_dump)) "low"
      = has_vulnerabilities_above_threshold (.list (infos.map VulnerabilityInfo.model_dump))
          "medium" := by
  have hone : ∀ j : VulnerabilityInfo,
      check_single_result_threshold j.model_dump (severity_levels.indexOf "low")
        severity_levels
      = check_single_result_threshold j.model_dump (severity_levels.indexOf "medium")
          severity_levels := fun j => rfl
  refine ⟨rfl, rfl, ?_⟩
  show (infos.map VulnerabilityInfo.model_dump).any
      (fun r => check_single_result_threshold r (severity_levels.indexOf "low") severity_levels)
    = (infos.map VulnerabilityInfo.model_dump).any
      (fun r => check_single_result_threshold r (severity_levels.indexOf "medium")
        severity_levels)
  induction infos with
  | nil => rfl
  | cons j rest ih => simp only [List.map_cons, List.any_cons, ih, hone]

/-- C9: a failed scan cannot trip the fail-on-vulnerabilities policy: the
default error record fails the threshold check at every index, and a run
whose scans all raise exits with code 0 even with the flag set. -/
theorem C9_error_scans_exit_zero
    (runAgent : String → Except String VulnerabilityInfo)
    (package_name ecosystem version e t : String) (packages : List PackageDict) :
    (runAgent (scan_query package_name ecosystem version) = .error e →
      ∀ k, check_single_result_threshold
        (scan_package runAgent package_name ecosystem version).model_dump k severity_levels
        = false)
    ∧ ((∀ pkg ∈ packages, ∃ msg, runAgent
          (scan_query pkg.package_name pkg.ecosystem pkg.version) = .error msg) →
        fail_check_exit_code true
          (.list ((scan_packages_batch runAgent packages).map VulnerabilityInfo.model_dump)) t
          = 0) := by
  constructor
  · intro h k
    rw [scan_package_error runAgent package_name ecosystem version e h]
    exact check_false_of_probes _ k rfl rfl rfl rfl rfl
  · intro hall
    unfold fail_check_exit_code
    rw [Bool.true_and]
    have hfalse : has_vulnerabilities_above_threshold
        (.list ((scan_packages_batch runAgent packages).map VulnerabilityInfo.model_dump)) t
        = false := by
      show ((scan_packages_batch runAgent packages).map VulnerabilityInfo.model_dump).any
        (fun r => check_single_result_threshold r (severity_levels.indexOf t) severity_levels)
          = false
      apply List.any_eq_false.mpr
      intro r hr
      simp only [Bool.not_eq_true]
      rcases List.mem_map.mp hr with ⟨res, hres, rfl⟩
      rw [scan_packages_batch_eq_map] at hres
      rcases List.mem_map.mp hres with ⟨pkg, hpkg, rfl⟩
      rcases hall pkg hpkg with ⟨msg, hmsg⟩
      rw [scan_package_error runAgent _ _ _ msg hmsg]
      exact check_false_of_probes _ _ rfl rfl rfl rfl rfl
    rw [hfalse]
    simp

/-- Witness for C9: a batch whose only scan raises exits with code 0 under
the fail flag. -/
theorem C9_error_scans_exit_zero_witness :
    fail_check_exit_code true
      (.list ((scan_packages_batch (fun _ => .error "connection refused") [sample_pkg]).map
        VulnerabilityInfo.model_dump)) "medium" = 0 :=
  (C9_error_scans_exit_zero (fun _ => .error "connection refused") "requests" "PyPI" "2.25.0"
    "connection refused" "medium" [sample_pkg]).2
    (fun _ _ => ⟨"connection refused", rfl⟩)
